import Mathlib

/-!
Verification development for the `message_ix` repository snapshot consisting of
the tutorial notebook `tutorial/westeros/westeros_fossil_resource.ipynb` and the
GitHub Actions workflow file (the `pytest` workflow).

The notebook is embedded at two levels:
* a syntactic level (`PyStmt`), recording the statements of each code cell, used
  for claims about control flow (absence of conditionals and exception handlers);
* a semantic level (`Event`), the linear sequence of platform calls the notebook
  performs when executed top to bottom, with the single `for` loop unrolled over
  the insertion order of the `potentials` dict (Python dicts iterate in insertion
  order).

The CI workflow is embedded as a matrix definition, a workflow-level environment
block, and a list of steps whose template strings (`expressions of the form
dollar-brace-brace ... brace-brace`) are represented as token lists (`Tok`).
-/

namespace Westeros

/-- A Python value appearing in the notebook's tabular records.  Values obtained
at runtime from the platform (pandas Series / set reads) are represented
symbolically by `ref` with the source expression's text. -/
inductive PyVal where
  | s (v : String)
  | i (v : Int)
  | ls (v : List String)
  | li (v : List Int)
  | ref (sourceExpr : String)
deriving DecidableEq, Repr

/-- A pandas-like flat tabular record: an ordered association of column names to
column values, as built by `pd.DataFrame({...})`. -/
def DataFrame := List (String × PyVal)
deriving DecidableEq, Repr

/-- The column names of a record. -/
def dfCols (df : DataFrame) : List String := df.map Prod.fst

/-- Modelled from the spec: `make_df` is imported by the notebook from
`message_ix.utils`, whose source file is not part of this repository snapshot.
The spec describes the notebooks as building pandas-like tabular records from a
base mapping together with keyword arguments; `make_df(base, **kwargs)` extends
or overwrites the base mapping with the keyword arguments (a dict update: keys
shared with the base keep their position but take the keyword value, new keys
are appended) and turns the result into a DataFrame. -/
def make_df (base kwargs : List (String × PyVal)) : List (String × PyVal) :=
  (base.map (fun kv =>
    match kwargs.lookup kv.1 with
    | some v => (kv.1, v)
    | none => kv))
  ++ kwargs.filter (fun kv => (base.lookup kv.1).isNone)

/-- `country = 'Westeros'` (notebook cell retrieving model period information). -/
def country : String := "Westeros"

/-- `commodity = 'coal'` (notebook cell defining sets). -/
def commodity : String := "coal"

/-- `level = 'resource'` (notebook cell defining sets). -/
def level : String := "resource"

/-- `potentials = \x7b'a': [1500, 10, 280], 'b': [3500, 52, 0]\x7d`: for each
grade, the potential, the cost, and the historical extraction. -/
def potentials : List (String × (Int × Int × Int)) :=
  [("a", (1500, 10, 280)), ("b", (3500, 52, 0))]

/-- The `resource_volume` record built in the loop body for one grade. -/
def resourceVolumeDf (grade : String) (vol : Int) : DataFrame :=
  [("node", PyVal.ls [country]),
   ("commodity", PyVal.s commodity),
   ("grade", PyVal.s grade),
   ("value", PyVal.i vol),
   ("unit", PyVal.s "GWa")]

/-- The `resource_cost` record built in the loop body for one grade; its `year`
column is `model_horizon.values.tolist()`, a value read from the scenario. -/
def resourceCostDf (grade : String) (cost : Int) : DataFrame :=
  [("node", PyVal.s country),
   ("commodity", PyVal.s commodity),
   ("grade", PyVal.s grade),
   ("year", PyVal.ref "model_horizon.values.tolist()"),
   ("value", PyVal.i cost),
   ("unit", PyVal.s "USD/kWa")]

/-- The `historical_extraction` record built in the loop body for one grade. -/
def historicalExtractionDf (grade : String) (hist : Int) : DataFrame :=
  [("node", PyVal.s country),
   ("commodity", PyVal.s commodity),
   ("grade", PyVal.s grade),
   ("year", PyVal.li [690]),
   ("value", PyVal.i hist),
   ("unit", PyVal.s "GWa")]

/-- The `base_input` mapping for the `input` parameter; `year_vtg` and
`year_act` are the series read from `scen.vintage_and_active_years()`. -/
def base_input : List (String × PyVal) :=
  [("node_loc", PyVal.s country),
   ("year_vtg", PyVal.ref "vintage_years"),
   ("year_act", PyVal.ref "act_years"),
   ("mode", PyVal.s "standard"),
   ("node_origin", PyVal.s country),
   ("commodity", PyVal.s "electricity"),
   ("time", PyVal.s "year"),
   ("time_origin", PyVal.s "year")]

/-- The keyword arguments of the notebook's `make_df` call. -/
def inputKwargs : List (String × PyVal) :=
  [("technology", PyVal.s "coal_ppl"),
   ("commodity", PyVal.s "coal"),
   ("level", PyVal.s "resource"),
   ("value", PyVal.i 1),
   ("unit", PyVal.s "%")]

/-- The record the notebook submits as the `input` parameter:
`make_df(base_input, technology='coal_ppl', commodity='coal', level='resource',
value=1, unit='%')`. -/
def inputDf : DataFrame := make_df base_input inputKwargs

/-- The objects the notebook binds that receive platform calls: the baseline
scenario `base`, its clone `scen`, and the two `Plots` helpers `b` and `p`. -/
inductive Obj where
  | base
  | scen
  | plotsB
  | plotsP
deriving DecidableEq, Repr

/-- One platform call performed by the notebook. -/
inductive Event where
  | platformInit
  | scenarioInit (recv : Obj) (model scenario : String)
  | clone (src dst : Obj) (model scenario comment : String) (keepSolution : Bool)
  | checkOut (recv : Obj)
  | addSet (recv : Obj) (setName : String) (members : PyVal)
  | vintageRead (recv : Obj)
  | setRead (recv : Obj) (setName : String)
  | addPar (recv : Obj) (parName : String) (df : DataFrame)
  | commit (recv : Obj) (comment : String)
  | setAsDefault (recv : Obj)
  | solve (recv : Obj)
  | varRead (recv : Obj) (varName : String)
  | plotsInit (dst : Obj) (src : Obj) (node : String) (firstyear : Int)
  | plot (recv : Obj) (kind : String)
  | closeDb
deriving DecidableEq, Repr

/-- The three `add_par` calls of one iteration of the loop
`for grade in potentials.keys()`. -/
def gradeEvents (entry : String × (Int × Int × Int)) : List Event :=
  [Event.addPar Obj.scen "resource_volume" (resourceVolumeDf entry.1 entry.2.1),
   Event.addPar Obj.scen "resource_cost" (resourceCostDf entry.1 entry.2.2.1),
   Event.addPar Obj.scen "historical_extraction"
     (historicalExtractionDf entry.1 entry.2.2.2)]

/-- The full sequence of platform calls made by executing the notebook's code
cells top to bottom, the loop unrolled over `potentials` in insertion order. -/
def notebookTrace : List Event :=
  [Event.platformInit,
   Event.scenarioInit Obj.base "Westeros Electrified" "baseline",
   Event.clone Obj.base Obj.scen "Westeros Electrified" "fossil_resources"
     "illustration of adding fossil resources" false,
   Event.checkOut Obj.scen,
   Event.addSet Obj.scen "commodity" (PyVal.s commodity),
   Event.addSet Obj.scen "level" (PyVal.s level),
   Event.addSet Obj.scen "level_resource" (PyVal.s level),
   Event.addSet Obj.scen "grade" (PyVal.ls ["a", "b"]),
   Event.vintageRead Obj.scen,
   Event.setRead Obj.scen "year"]
  ++ potentials.flatMap gradeEvents
  ++ [Event.addPar Obj.scen "input" inputDf,
      Event.commit Obj.scen "added coal resources",
      Event.setAsDefault Obj.scen,
      Event.solve Obj.scen,
      Event.varRead Obj.scen "OBJ",
      Event.plotsInit Obj.plotsB Obj.base country 700,
      Event.plotsInit Obj.plotsP Obj.scen country 700,
      Event.plot Obj.plotsB "activity",
      Event.plot Obj.plotsP "activity",
      Event.plot Obj.plotsB "capacity",
      Event.plot Obj.plotsP "capacity",
      Event.plot Obj.plotsB "prices",
      Event.plot Obj.plotsP "prices",
      Event.plot Obj.plotsP "fossil_supply_curve",
      Event.plot Obj.plotsP "extraction",
      Event.closeDb]

/-- Event classifiers used in the ordering claims. -/
def isPlatformInit : Event → Bool
  | Event.platformInit => true
  | _ => false

def isClone : Event → Bool
  | Event.clone _ _ _ _ _ _ => true
  | _ => false

def isAddSet : Event → Bool
  | Event.addSet _ _ _ => true
  | _ => false

def isAddPar : Event → Bool
  | Event.addPar _ _ _ => true
  | _ => false

def isCommit : Event → Bool
  | Event.commit _ _ => true
  | _ => false

def isSolve : Event → Bool
  | Event.solve _ => true
  | _ => false

def isPlot : Event → Bool
  | Event.plot _ _ => true
  | _ => false

/-- `allBefore p q tr` holds when every `p`-event in `tr` occurs strictly before
every `q`-event. -/
def allBefore (p q : Event → Bool) (tr : List Event) : Bool :=
  tr.enum.all fun ie =>
    tr.enum.all fun jf =>
      !(p ie.2 && q jf.2) || decide (ie.1 < jf.1)

/-- Count the events of a given kind. -/
def countEvents (p : Event → Bool) (tr : List Event) : Nat :=
  (tr.filter p).length

/-- The parameter records the notebook submits, in submission order. -/
def submittedPars : List (String × DataFrame) :=
  notebookTrace.filterMap fun e =>
    match e with
    | Event.addPar _ n df => some (n, df)
    | _ => none

/-- The column set the spec attributes to the submitted records. -/
def specCols : List String := ["node", "commodity", "grade", "year", "value", "unit"]

/-! ### Scenario-state semantics

A small state model sufficient for the frame claim: the data held by each
scenario object, and how each platform call changes it.  Read-only calls
(set/var reads, plotting, platform open/close) leave the state unchanged. -/

/-- The platform-side data of one scenario. -/
structure ScenData where
  sets : List (String × PyVal)
  pars : List (String × DataFrame)
  hasSolution : Bool
  checkedOut : Bool
  isDefault : Bool
deriving DecidableEq, Repr

/-- Pointwise update of the state at one object. -/
def update (σ : Obj → ScenData) (o : Obj) (d : ScenData) : Obj → ScenData :=
  fun x => if x = o then d else σ x

/-- The effect of one platform call on the per-object scenario data.  `clone`
writes only the destination object (copying the source, dropping the solution
when `keepSolution` is false); `add_set`/`add_par`/`check_out`/`commit`/
`set_as_default`/`solve` write only their receiver; every other call is a read. -/
def applyEvent (σ : Obj → ScenData) (e : Event) : Obj → ScenData :=
  match e with
  | Event.clone src dst _ _ _ keepSolution =>
      update σ dst
        { σ src with hasSolution := keepSolution && (σ src).hasSolution }
  | Event.checkOut r => update σ r { σ r with checkedOut := true }
  | Event.addSet r n v => update σ r { σ r with sets := (n, v) :: (σ r).sets }
  | Event.addPar r n df => update σ r { σ r with pars := (n, df) :: (σ r).pars }
  | Event.commit r _ => update σ r { σ r with checkedOut := false }
  | Event.setAsDefault r => update σ r { σ r with isDefault := true }
  | Event.solve r => update σ r { σ r with hasSolution := true }
  | _ => σ

/-- The events the claim lists as mutating scenario data. -/
def isMutatingCall : Event → Bool
  | Event.addSet _ _ _ => true
  | Event.addPar _ _ _ => true
  | Event.commit _ _ => true
  | Event.setAsDefault _ => true
  | Event.solve _ => true
  | _ => false

/-- The receiver of a mutating call. -/
def callReceiver : Event → Option Obj
  | Event.addSet r _ _ => some r
  | Event.addPar r _ _ => some r
  | Event.commit r _ => some r
  | Event.setAsDefault r => some r
  | Event.solve r => some r
  | Event.checkOut r => some r
  | _ => none

/-! ### Syntactic layer

The statements of the notebook's code cells, for the control-flow claims.
Expression text is recorded verbatim (with Python's single quotes). -/

/-- A Python statement as it appears in a notebook code cell. -/
inductive PyStmt where
  | imprt (modText : String)
  | assign (target expr : String)
  | exprStmt (expr : String)
  | forStmt (target iterable : String) (body : List PyStmt)
  | ifStmt (cond : String) (thenBody elseBody : List PyStmt)
  | tryStmt (body handlers : List PyStmt)
  | whileStmt (cond : String) (body : List PyStmt)
deriving Repr

mutual

/-- Number of `if` statements in a statement, including nested ones. -/
def countIf : PyStmt → Nat
  | PyStmt.forStmt _ _ b => countIfList b
  | PyStmt.ifStmt _ t e => 1 + countIfList t + countIfList e
  | PyStmt.tryStmt b h => countIfList b + countIfList h
  | PyStmt.whileStmt _ b => countIfList b
  | _ => 0

/-- Number of `if` statements in a statement list. -/
def countIfList : List PyStmt → Nat
  | [] => 0
  | s :: rest => countIf s + countIfList rest

end

mutual

/-- Number of `try` statements (exception handlers) in a statement. -/
def countTry : PyStmt → Nat
  | PyStmt.forStmt _ _ b => countTryList b
  | PyStmt.ifStmt _ t e => countTryList t + countTryList e
  | PyStmt.tryStmt b h => 1 + countTryList b + countTryList h
  | PyStmt.whileStmt _ b => countTryList b
  | _ => 0

/-- Number of `try` statements in a statement list. -/
def countTryList : List PyStmt → Nat
  | [] => 0
  | s :: rest => countTry s + countTryList rest

end

mutual

/-- Number of `while` statements in a statement. -/
def countWhile : PyStmt → Nat
  | PyStmt.forStmt _ _ b => countWhileList b
  | PyStmt.ifStmt _ t e => countWhileList t + countWhileList e
  | PyStmt.tryStmt b h => countWhileList b + countWhileList h
  | PyStmt.whileStmt _ b => 1 + countWhileList b
  | _ => 0

/-- Number of `while` statements in a statement list. -/
def countWhileList : List PyStmt → Nat
  | [] => 0
  | s :: rest => countWhile s + countWhileList rest

end

mutual

/-- The iterable expressions of all `for` loops in a statement, in order. -/
def forIters : PyStmt → List String
  | PyStmt.forStmt _ it b => it :: forItersList b
  | PyStmt.ifStmt _ t e => forItersList t ++ forItersList e
  | PyStmt.tryStmt b h => forItersList b ++ forItersList h
  | PyStmt.whileStmt _ b => forItersList b
  | _ => []

/-- The iterable expressions of all `for` loops in a statement list. -/
def forItersList : List PyStmt → List String
  | [] => []
  | s :: rest => forIters s ++ forItersList rest

end

/-- The statements of the notebook's code cells, in order (markdown cells carry
no code and are omitted; multi-line expressions are recorded on one line). -/
def notebookCells : List (List PyStmt) :=
  [ [PyStmt.imprt "import pandas as pd",
     PyStmt.imprt "import ixmp",
     PyStmt.imprt "import message_ix",
     PyStmt.imprt "from message_ix.utils import make_df",
     PyStmt.exprStmt "%matplotlib inline"],
    [PyStmt.assign "mp" "ixmp.Platform()"],
    [PyStmt.assign "model" "\x27Westeros Electrified\x27",
     PyStmt.assign "base"
       "message_ix.Scenario(mp, model=model, scenario=\x27baseline\x27)",
     PyStmt.assign "scen"
       "base.clone(model, \x27fossil_resources\x27, \x27illustration of adding fossil resources\x27, keep_solution=False)",
     PyStmt.exprStmt "scen.check_out()"],
    [PyStmt.assign "commodity" "\x27coal\x27",
     PyStmt.assign "level" "\x27resource\x27",
     PyStmt.exprStmt "scen.add_set(\x27commodity\x27, commodity)",
     PyStmt.exprStmt "scen.add_set(\x27level\x27, level)",
     PyStmt.exprStmt "scen.add_set(\x27level_resource\x27, level)",
     PyStmt.exprStmt "scen.add_set(\x27grade\x27, [\x27a\x27, \x27b\x27])"],
    [PyStmt.assign "year_df" "scen.vintage_and_active_years()",
     PyStmt.assign "vintage_years, act_years"
       "year_df[\x27year_vtg\x27], year_df[\x27year_act\x27]",
     PyStmt.assign "model_horizon" "scen.set(\x27year\x27)",
     PyStmt.assign "country" "\x27Westeros\x27"],
    [PyStmt.assign "potentials"
       "\x7b\x27a\x27: [1500, 10, 280], \x27b\x27: [3500, 52, 0]\x7d"],
    [PyStmt.forStmt "grade" "potentials.keys()"
      [PyStmt.assign "df"
         "pd.DataFrame(\x7b\x27node\x27: [country], \x27commodity\x27: commodity, \x27grade\x27: grade, \x27value\x27: potentials[grade][0], \x27unit\x27: \x27GWa\x27\x7d)",
       PyStmt.exprStmt "scen.add_par(\x27resource_volume\x27, df)",
       PyStmt.assign "df"
         "pd.DataFrame(\x7b\x27node\x27: country, \x27commodity\x27: commodity, \x27grade\x27: grade, \x27year\x27: model_horizon.values.tolist(), \x27value\x27: potentials[grade][1], \x27unit\x27: \x27USD/kWa\x27\x7d)",
       PyStmt.exprStmt "scen.add_par(\x27resource_cost\x27, df)",
       PyStmt.assign "df"
         "pd.DataFrame(\x7b\x27node\x27: country, \x27commodity\x27: commodity, \x27grade\x27: grade, \x27year\x27: [690], \x27value\x27: potentials[grade][2], \x27unit\x27: \x27GWa\x27\x7d)",
       PyStmt.exprStmt "scen.add_par(\x27historical_extraction\x27, df)"]],
    [PyStmt.assign "base_input"
       "\x7b\x27node_loc\x27: country, \x27year_vtg\x27: vintage_years, \x27year_act\x27: act_years, \x27mode\x27: \x27standard\x27, \x27node_origin\x27: country, \x27commodity\x27: \x27electricity\x27, \x27time\x27: \x27year\x27, \x27time_origin\x27: \x27year\x27\x7d",
     PyStmt.assign "df"
       "make_df(base_input, technology=\x27coal_ppl\x27, commodity=\x27coal\x27, level=\x27resource\x27, value=1, unit=\x27%\x27)",
     PyStmt.exprStmt "scen.add_par(\x27input\x27, df)"],
    [PyStmt.exprStmt "scen.commit(comment=\x27added coal resources\x27)",
     PyStmt.exprStmt "scen.set_as_default()"],
    [PyStmt.exprStmt "scen.solve()"],
    [PyStmt.exprStmt "scen.var(\x27OBJ\x27)[\x27lvl\x27]"],
    [PyStmt.imprt "from tools import Plots",
     PyStmt.assign "b" "Plots(base, country, firstyear=700)",
     PyStmt.assign "p" "Plots(scen, country, firstyear=700)"],
    [PyStmt.exprStmt "b.plot_activity(baseyear=True, subset=[\x27coal_ppl\x27, \x27wind_ppl\x27])"],
    [PyStmt.exprStmt "p.plot_activity(baseyear=True, subset=[\x27coal_ppl\x27, \x27wind_ppl\x27])"],
    [PyStmt.exprStmt "b.plot_capacity(baseyear=True, subset=[\x27coal_ppl\x27, \x27wind_ppl\x27])"],
    [PyStmt.exprStmt "p.plot_capacity(baseyear=True, subset=[\x27coal_ppl\x27, \x27wind_ppl\x27])"],
    [PyStmt.exprStmt "b.plot_prices(subset=[\x27light\x27], baseyear=True)"],
    [PyStmt.exprStmt "p.plot_prices(subset=[\x27light\x27], baseyear=True)"],
    [PyStmt.exprStmt "p.plot_fossil_supply_curve()"],
    [PyStmt.exprStmt "p.plot_extraction(subset=[\x27coal\x27], baseyear=True, bygrade=True)"],
    [PyStmt.exprStmt "mp.close_db()"]]

/-- All statements of the notebook, cells concatenated in order. -/
def notebookStmts : List PyStmt := notebookCells.flatten

end Westeros

namespace CIWorkflow

/-- One token of a GitHub Actions template string: literal text, a reference to
the `env` context, or a reference to the `matrix` context. -/
inductive Tok where
  | lit (s : String)
  | envRef (n : String)
  | matrixRef (n : String)
deriving DecidableEq, Repr

/-- A template string, as a token list. -/
def Tpl := List Tok
deriving DecidableEq, Repr

/-- One step of the `pytest` job.  Absent YAML keys take the structure's
defaults; in particular a step that does not set `continue-on-error` has
`continueOnError := false`, GitHub Actions' default. -/
structure Step where
  name : String := ""
  uses : String := ""
  withArgs : List (String × Tpl) := []
  stepEnv : List (String × Tpl) := []
  runCmds : List Tpl := []
  shell : String := ""
  workingDirectory : String := ""
  onlyIf : String := ""
  continueOnError : Bool := false
deriving DecidableEq, Repr

/-- The job's matrix strategy block. -/
structure MatrixDef where
  os : List String
  pythonVersion : List String
  exclude : List (String × String)
  failFast : Bool
deriving DecidableEq, Repr

/-- `jobs.pytest.strategy.matrix` with `fail-fast: false`. -/
def ciMatrix : MatrixDef :=
  { os := ["macos-latest", "ubuntu-latest", "windows-latest"],
    pythonVersion := ["3.6", "3.8"],
    exclude := [("windows-latest", "3.6")],
    failFast := false }

/-- All OS × Python pairs of the matrix, before exclusion. -/
def matrixProduct (m : MatrixDef) : List (String × String) :=
  m.os.flatMap fun o => m.pythonVersion.map fun v => (o, v)

/-- The jobs GitHub Actions generates: the product minus the excluded pairs. -/
def matrixJobs (m : MatrixDef) : List (String × String) :=
  (matrixProduct m).filter fun j => !(m.exclude.contains j)

/-- Whether a failure of one matrix job cancels the remaining in-progress jobs:
it does exactly when `fail-fast` is set. -/
def remainingCancelled (m : MatrixDef) (someJobFailed : Bool) : Bool :=
  m.failFast && someJobFailed

/-- The workflow-level `env:` block. -/
def workflowEnv : List (String × String) :=
  [("GAMS_VERSION", "25.1.1"), ("depth", "100")]

/-- `jobs.pytest.steps`, in file order. -/
def ciSteps : List Step :=
  [ { name := "Check out ixmp",
      uses := "actions/checkout@v2",
      withArgs := [("repository", [Tok.lit "iiasa/ixmp"]),
                   ("path", [Tok.lit "ixmp"]),
                   ("fetch-depth", [Tok.envRef "depth"])] },
    { name := "Check out message_ix",
      uses := "actions/checkout@v2",
      withArgs := [("path", [Tok.lit "message_ix"]),
                   ("fetch-depth", [Tok.envRef "depth"])] },
    { name := "Fetch tags (for setuptools-scm)",
      runCmds := [[Tok.lit "(cd ixmp; git fetch --tags --depth=",
                   Tok.envRef "depth", Tok.lit ")"],
                  [Tok.lit "(cd message_ix; git fetch --tags --depth=",
                   Tok.envRef "depth", Tok.lit ")"]],
      shell := "bash" },
    { uses := "actions/setup-python@v2",
      withArgs := [("python-version", [Tok.matrixRef "python-version"])] },
    { name := "Set RETICULATE_PYTHON",
      runCmds := [[Tok.lit "echo \"RETICULATE_PYTHON=$pythonLocation\" >> $GITHUB_ENV"]],
      shell := "bash" },
    { uses := "r-lib/actions/setup-r@master" },
    { name := "Use OpenJDK 14 (macOS only)",
      uses := "actions/setup-java@v1",
      withArgs := [("java-version", [Tok.lit "14"])],
      onlyIf := "startsWith(matrix.os, \x27macos\x27)" },
    { name := "Cache GAMS installer, Python packages, and R packages",
      uses := "actions/cache@v2",
      withArgs := [("path", [Tok.lit "gams ~/.cache/pip ~/Library/Caches/pip ~/appdata/local/pip/cache ",
                             Tok.envRef "R_LIBS_USER"]),
                   ("key", [Tok.matrixRef "os", Tok.lit "-gams",
                            Tok.envRef "GAMS_VERSION", Tok.lit "-py",
                            Tok.matrixRef "python-version"]),
                   ("restore-keys", [Tok.matrixRef "os", Tok.lit "-gams",
                                     Tok.envRef "GAMS_VERSION", Tok.lit "- ",
                                     Tok.matrixRef "os", Tok.lit "-"])] },
    { name := "Install GAMS and Graphviz",
      stepEnv := [("CI_OS", [Tok.matrixRef "os"])],
      runCmds := [[Tok.lit "ixmp/ci/install-gams.sh"],
                  [Tok.lit "ixmp/ci/install-graphviz.sh"]],
      shell := "bash" },
    { name := "Check GAMS",
      runCmds := [[Tok.lit "gams"]],
      shell := "bash" },
    { name := "Upgrade pip, wheel, setuptools-scm",
      runCmds := [[Tok.lit "python -m pip install --upgrade pip wheel setuptools-scm"]] },
    { name := "Install ixmp and dependencies",
      workingDirectory := "ixmp",
      runCmds := [[Tok.lit "pip install ."]] },
    { name := "Install Python package and dependencies",
      workingDirectory := "message_ix",
      runCmds := [[Tok.lit "pip install .[docs,reporting,tests,tutorial]"]] },
    { name := "Install R package, dependencies, and tutorial requirements",
      runCmds := [[Tok.lit "install.packages(\"remotes\")"],
                  [Tok.lit "remotes::install_cran(c(\"rcmdcheck\", \"dplyr\", \"IRkernel\"))"],
                  [Tok.lit "remotes::install_deps(\"rmessageix\", dependencies = TRUE)"],
                  [Tok.lit "IRkernel::installspec()"],
                  [Tok.lit "remotes::install_local(\"rmessageix\")"]],
      workingDirectory := "message_ix",
      shell := "Rscript \x7b0\x7d" },
    { name := "Run test suite using pytest",
      workingDirectory := "message_ix",
      runCmds := [[Tok.lit "pytest message_ix -m \"not nightly\" --verbose --cov-report=xml --color=yes"]] },
    { name := "Run R CMD check",
      runCmds := [[Tok.lit "rcmdcheck::rcmdcheck(\"rmessageix\", args = c(\"--no-manual\", \"--as-cran\", \"--no-multiarch\"), error_on = \"warning\", check_dir = \"check\")"]],
      workingDirectory := "message_ix",
      shell := "Rscript \x7b0\x7d" },
    { name := "Upload test coverage to Codecov.io",
      runCmds := [[Tok.lit "curl -o codecov.sh https://codecov.io/bash"],
                  [Tok.lit "chmod +x codecov.sh"],
                  [Tok.lit "./codecov.sh"]],
      workingDirectory := "message_ix",
      shell := "bash" } ]

/-- Index of the first step with the given `name` key. -/
def stepIdx (n : String) : Nat := (ciSteps.map Step.name).indexOf n

/-- A job succeeds exactly when every executed step either exits 0 or is marked
`continue-on-error` (the runner's failure rule; exit codes are paired with the
steps positionally). -/
def jobSucceeds (sts : List Step) (exitCodes : List Nat) : Bool :=
  (sts.zip exitCodes).all fun pr => pr.2 == 0 || pr.1.continueOnError

end CIWorkflow

namespace Westeros

/-- Claim C1: the notebook performs its platform calls in the fixed order
platform load → clone of `baseline` → every `add_set` → every `add_par` →
`commit` → `solve` → all plotting, each phase nonempty, and its statements
contain no conditional that could alter the order. -/
theorem claim_C1_call_order :
    allBefore isPlatformInit isClone notebookTrace = true ∧
    allBefore isClone isAddSet notebookTrace = true ∧
    allBefore isAddSet isAddPar notebookTrace = true ∧
    allBefore isAddSet isCommit notebookTrace = true ∧
    allBefore isAddPar isCommit notebookTrace = true ∧
    allBefore isCommit isSolve notebookTrace = true ∧
    allBefore isSolve isPlot notebookTrace = true ∧
    countEvents isPlatformInit notebookTrace = 1 ∧
    countEvents isClone notebookTrace = 1 ∧
    countEvents isAddSet notebookTrace = 4 ∧
    countEvents isAddPar notebookTrace = 7 ∧
    countEvents isCommit notebookTrace = 1 ∧
    countEvents isSolve notebookTrace = 1 ∧
    countEvents isPlot notebookTrace = 8 ∧
    countIfList notebookStmts = 0 :=
  ⟨rfl, rfl, rfl, rfl, rfl, rfl, rfl, rfl, rfl, rfl, rfl, rfl, rfl, rfl, rfl⟩

/-- Claim C2 counterexample: the record submitted by `add_par('input', df)`
carries the column `node_loc`, which is outside the claimed column set
(node, commodity, grade, year, value, unit). -/
theorem claim_C2_counterexample :
    ("input", inputDf) ∈ submittedPars ∧
    "node_loc" ∈ dfCols inputDf ∧
    "node_loc" ∉ specCols := by
  decide

/-- Claim C2 (amended): every record submitted via `add_par` to a parameter
other than `input` has its columns drawn only from
(node, commodity, grade, year, value, unit); the single record submitted to
`input` carries exactly the columns node_loc, year_vtg, year_act, mode,
node_origin, commodity, time, time_origin, technology, level, value, unit. -/
theorem claim_C2_amended :
    (submittedPars.all fun nd =>
      nd.1 == "input" || (dfCols nd.2).all (fun c => specCols.contains c)) = true ∧
    (submittedPars.filter fun nd => nd.1 == "input") = [("input", inputDf)] ∧
    dfCols inputDf = ["node_loc", "year_vtg", "year_act", "mode", "node_origin",
      "commodity", "time", "time_origin", "technology", "level", "value", "unit"] := by
  refine ⟨rfl, by decide, rfl⟩

/-- Claim C4: the notebook's code cells contain no `if` statement, no
`try`/`except` block and no `while` loop; its only loop is the `for` over the
fixed `potentials.keys()`, so no construct catches or retries a failed platform
call and any exception propagates out of the notebook. -/
theorem claim_C4_no_conditional_no_handler :
    countIfList notebookStmts = 0 ∧
    countTryList notebookStmts = 0 ∧
    countWhileList notebookStmts = 0 ∧
    forItersList notebookStmts = ["potentials.keys()"] :=
  ⟨rfl, rfl, rfl, rfl⟩

/-- Claim C9: in `make_df(base_input, technology='coal_ppl', commodity='coal',
level='resource', value=1, unit='%')` the keyword arguments override the base
mapping — the submitted frame has commodity 'coal' (not the 'electricity' of
`base_input`), level 'resource', value 1, unit '%' — while node_loc, year_vtg,
year_act, mode, node_origin, time and time_origin are taken unchanged from
`base_input`. -/
theorem claim_C9_make_df_override :
    List.lookup "commodity" base_input = some (PyVal.s "electricity") ∧
    List.lookup "commodity" inputDf = some (PyVal.s "coal") ∧
    List.lookup "level" inputDf = some (PyVal.s "resource") ∧
    List.lookup "value" inputDf = some (PyVal.i 1) ∧
    List.lookup "unit" inputDf = some (PyVal.s "%") ∧
    List.lookup "technology" inputDf = some (PyVal.s "coal_ppl") ∧
    List.lookup "node_loc" inputDf = List.lookup "node_loc" base_input ∧
    List.lookup "year_vtg" inputDf = List.lookup "year_vtg" base_input ∧
    List.lookup "year_act" inputDf = List.lookup "year_act" base_input ∧
    List.lookup "mode" inputDf = List.lookup "mode" base_input ∧
    List.lookup "node_origin" inputDf = List.lookup "node_origin" base_input ∧
    List.lookup "time" inputDf = List.lookup "time" base_input ∧
    List.lookup "time_origin" inputDf = List.lookup "time_origin" base_input := by
  decide

/-- Claim C10: the notebook never mutates the `baseline` scenario object: the
clone is created as `fossil_resources` with `keep_solution=False`, every
mutating call (`add_set`, `add_par`, `commit`, `set_as_default`, `solve`, and
also `check_out`) targets the clone `scen`, and running the whole call sequence
from any platform state leaves the data of `base` unchanged. -/
theorem claim_C10_base_unchanged :
    (∀ σ : Obj → ScenData,
      (notebookTrace.foldl applyEvent σ) Obj.base = σ Obj.base) ∧
    Event.clone Obj.base Obj.scen "Westeros Electrified" "fossil_resources"
      "illustration of adding fossil resources" false ∈ notebookTrace ∧
    (notebookTrace.all fun e =>
      !(isMutatingCall e) || (callReceiver e == some Obj.scen)) = true ∧
    (notebookTrace.all fun e =>
      !(callReceiver e == some Obj.base)) = true := by
  refine ⟨fun σ => rfl, by decide, rfl, rfl⟩

end Westeros

namespace CIWorkflow

/-- Claim C3 counterexample: the pair (windows-latest, "3.6") belongs to the
OS × Python product of the matrix but generates no job, because the matrix
excludes it; so the job list is not the full Cartesian product. -/
theorem claim_C3_counterexample :
    ("windows-latest", "3.6") ∈ matrixProduct ciMatrix ∧
    ("windows-latest", "3.6") ∉ matrixJobs ciMatrix := by
  decide

/-- Claim C3 (amended): the workflow generates a job for every pair in
(macos-latest, ubuntu-latest, windows-latest) × ("3.6", "3.8") except the
excluded (windows-latest, "3.6"). -/
theorem claim_C3_amended :
    matrixJobs ciMatrix =
      [("macos-latest", "3.6"), ("macos-latest", "3.8"),
       ("ubuntu-latest", "3.6"), ("ubuntu-latest", "3.8"),
       ("windows-latest", "3.8")] ∧
    matrixJobs ciMatrix =
      (matrixProduct ciMatrix).filter
        (fun j => !(j == ("windows-latest", "3.6"))) := by
  refine ⟨rfl, rfl⟩

/-- Claim C5: in the job the steps run in the order install GAMS and Graphviz
(index 8), install ixmp (11), install message_ix with extras (12), install R
packages (13), pytest (14), R CMD check (15), upload coverage (16); pytest
comes after the GAMS install, and the coverage upload is the last of the 17
steps. -/
theorem claim_C5_step_order :
    stepIdx "Install GAMS and Graphviz" = 8 ∧
    stepIdx "Install ixmp and dependencies" = 11 ∧
    stepIdx "Install Python package and dependencies" = 12 ∧
    stepIdx "Install R package, dependencies, and tutorial requirements" = 13 ∧
    stepIdx "Run test suite using pytest" = 14 ∧
    stepIdx "Run R CMD check" = 15 ∧
    stepIdx "Upload test coverage to Codecov.io" = 16 ∧
    ciSteps.length = 17 ∧
    stepIdx "Install GAMS and Graphviz" < stepIdx "Run test suite using pytest" ∧
    stepIdx "Upload test coverage to Codecov.io" = ciSteps.length - 1 := by
  decide

/-- Claim C6: the workflow-level `env:` block defines exactly GAMS_VERSION =
25.1.1 and depth = 100; both checkout steps pass `fetch-depth:` the `depth`
variable, the tag-fetch step passes it as `--depth` in both of its two git
commands, and the cache key interpolates GAMS_VERSION. -/
theorem claim_C6_env :
    workflowEnv = [("GAMS_VERSION", "25.1.1"), ("depth", "100")] ∧
    workflowEnv.length = 2 ∧
    (ciSteps.filter fun st => st.uses == "actions/checkout@v2").length = 2 ∧
    (ciSteps.all fun st =>
      !(st.uses == "actions/checkout@v2") ||
        (st.withArgs.lookup "fetch-depth" == some [Tok.envRef "depth"])) = true ∧
    ((ciSteps.filter fun st =>
        st.name == "Fetch tags (for setuptools-scm)").map Step.runCmds) =
      [[[Tok.lit "(cd ixmp; git fetch --tags --depth=",
         Tok.envRef "depth", Tok.lit ")"],
        [Tok.lit "(cd message_ix; git fetch --tags --depth=",
         Tok.envRef "depth", Tok.lit ")"]]] ∧
    ((ciSteps.filter fun st => st.uses == "actions/cache@v2").map
        fun st => st.withArgs.lookup "key") =
      [some [Tok.matrixRef "os", Tok.lit "-gams", Tok.envRef "GAMS_VERSION",
             Tok.lit "-py", Tok.matrixRef "python-version"]] := by
  refine ⟨rfl, rfl, by decide, rfl, by decide, by decide⟩

/-- Claim C7: no step of the workflow sets `continue-on-error`, so under the
runner's failure rule any step exiting non-zero fails the job: whenever some
paired exit code is non-zero, the job does not succeed. -/
theorem claim_C7_no_masking :
    (ciSteps.all fun st => !st.continueOnError) = true ∧
    ∀ exitCodes : List Nat,
      ((ciSteps.zip exitCodes).any fun pr => pr.2 != 0) = true →
      jobSucceeds ciSteps exitCodes = false := by
  refine ⟨rfl, ?_⟩
  intro codes h
  rw [List.any_eq_true] at h
  obtain ⟨pr, hmem, hne⟩ := h
  have hstep : pr.1 ∈ ciSteps := (List.of_mem_zip hmem).1
  have hall : ∀ st ∈ ciSteps, st.continueOnError = false := by decide
  have hcoe : pr.1.continueOnError = false := hall pr.1 hstep
  cases hjs : jobSucceeds ciSteps codes with
  | false => rfl
  | true =>
    exfalso
    unfold jobSucceeds at hjs
    rw [List.all_eq_true] at hjs
    have hpr := hjs pr hmem
    rw [hcoe, Bool.or_false] at hpr
    simp only [bne_iff_ne, ne_eq] at hne
    simp only [beq_iff_eq] at hpr
    exact hne hpr

/-- Witness for claim C7 at the concrete exit-code list `[1]` (the first step,
checking out ixmp, exits 1): the job fails. -/
theorem claim_C7_no_masking_witness :
    ((ciSteps.zip [1]).any fun pr => pr.2 != 0) = true ∧
    jobSucceeds ciSteps [1] = false :=
  ⟨by decide, claim_C7_no_masking.2 [1] (by decide)⟩

/-- Claim C8: the matrix excludes exactly the pair (windows-latest, "3.6"), so
5 of the 6 OS × Python pairs produce jobs; and since `fail-fast` is false, a
failing matrix job never cancels the remaining jobs. -/
theorem claim_C8_exclusion_failfast :
    ciMatrix.exclude = [("windows-latest", "3.6")] ∧
    (matrixProduct ciMatrix).length = 6 ∧
    (matrixJobs ciMatrix).length = 5 ∧
    ((matrixProduct ciMatrix).filter
        fun j => !((matrixJobs ciMatrix).contains j)) =
      [("windows-latest", "3.6")] ∧
    ciMatrix.failFast = false ∧
    ∀ someJobFailed : Bool,
      remainingCancelled ciMatrix someJobFailed = false := by
  refine ⟨rfl, rfl, rfl, by decide, rfl, by decide⟩

end CIWorkflow
